import Mathlib

/-!
The Lua binding layer of geeqie, `src/lua.c`.

A shallow embedding of `src/lua.c` (Lua 5.1 C API binding of the image record
and its metadata) together with the part of the Lua 5.1 runtime, of glib and of
the C library that the file calls.  The functions of `lua.c` keep their names;
the library functions they call are modelled after the Lua 5.1 reference
implementation (`lapi.c`, `lauxlib.c`, `lvm.c`, `lbaselib.c`), POSIX and the
glib documentation, and keep their names too.

Conventions.
* C strings are `String`; a `char *` that may be `NULL` is `Option String`.
* `lua_Number` values are `Int`: every number this binding pushes is an integer
  (`time_t`, `gint64`); their text form is a parameter (`lua_number2str`).
* A C function that can leave by `lua_error` (a `longjmp`) returns an `Outcome`;
  `Outcome.undefined` stands for C undefined behaviour (a pointer that does not
  address what the code reads through it).
* Calls into collaborators outside `lua.c` are recorded, in order, in a list of
  `HostCall`.
-/

namespace Geeqie

/-! ## Host records -/

/-- The host file record `FileData`, restricted to the fields `lua.c` reads. -/
structure FileData where
  path : String
  name : String
  extension : String
  date : Int
  size : Int
deriving DecidableEq, Repr

/-- A parsed metadata set `ExifData`; `lua.c` only passes it on to the
metadata collaborator. -/
structure ExifData where
  handle : Nat
deriving DecidableEq, Repr

/-- The content of a userdata block of `sizeof(void *)` bytes: the pointer the
binding stored in it. -/
inductive Pointer where
  | null
  | fileData (fd : FileData)
  | exifData (exif : ExifData)
deriving DecidableEq, Repr

/-- The broken-down time `struct tm`. -/
structure Tm where
  tm_sec : Int
  tm_min : Int
  tm_hour : Int
  tm_mday : Int
  tm_mon : Int
  tm_year : Int
  tm_wday : Int
  tm_yday : Int
  tm_isdst : Int
deriving DecidableEq, Repr

/-- The value `memset(&tm, 0, sizeof(tm))` leaves in `tm`. -/
def Tm.zeroed : Tm :=
  { tm_sec := 0, tm_min := 0, tm_hour := 0, tm_mday := 0, tm_mon := 0,
    tm_year := 0, tm_wday := 0, tm_yday := 0, tm_isdst := 0 }

/-! ## Lua values and the interpreter state -/

/-- The host functions `lua_init` registers (`lua_CFunction` values). -/
inductive CFunc where
  | image_get_path
  | image_get_name
  | image_get_extension
  | image_get_date
  | image_get_size
  | image_get_exif
  | exif_get_datum
deriving DecidableEq, Repr

/-- A Lua value (`TValue`).  Tables and full userdata are references into the
heap of the state.  The only function values are the host functions of this
binding; closures written in Lua are not values of the model. -/
inductive TValue where
  | nil
  | boolean (b : Bool)
  | number (n : Int)
  | string (s : String)
  | table (ref : Nat)
  | userdata (ref : Nat)
  | cfunction (f : CFunc)
deriving DecidableEq, Repr

/-- The key-value part of a table (`luaH_get` / `luaH_set` act on it). -/
abbrev Fields := List (TValue × TValue)

/-- A Lua table: its entries and its metatable. -/
structure Table where
  fields : Fields
  metatable : Option Nat
deriving DecidableEq, Repr

/-- A full userdata: its block and its metatable. -/
structure Udata where
  block : Pointer
  metatable : Option Nat
deriving DecidableEq, Repr

/-- The interpreter state `lua_State` as seen from the base level of the C
stack: the value stack (bottom first, so index 1 is the head), the heap of
tables and userdata, the registry and the table of globals.  The registry and
the globals are plain key-value stores: a metatable on either of them is
outside the model. -/
structure lua_State where
  stack : List TValue
  tables : List Table
  udata : List Udata
  registry : Fields
  globals : Fields
deriving DecidableEq, Repr

/-- A call out of `lua.c` into a collaborator or into the C library. -/
inductive HostCall where
  | exif_read_fd (fd : FileData)
  | exif_get_data_as_text (exif : ExifData) (key : String)
  | strptime (s : String) (format : String)
  | mktime (tm : Tm)
  | get_rc_dir
  | g_locale_to_utf8 (s : String)
  | log_printf (msg : String)
deriving DecidableEq, Repr

/-- The collaborators of `lua.c`: the metadata library, the C library's time
functions, Lua's number formatting, the configuration directory and glib's
path and character-set functions. -/
structure Host where
  exif_read_fd : FileData → Option ExifData
  exif_get_data_as_text : ExifData → String → Option String
  strptime : String → String → Tm → Option Tm
  mktime : Tm → Int
  lua_number2str : Int → String
  get_rc_dir : String
  g_build_filename : String → String → String
  g_locale_to_utf8 : String → Except String String

/-- How a C function called by the interpreter ends: it returns `nresults`
(its results are the topmost values of its stack), it raises a Lua error with
an error value, or its behaviour is undefined. -/
inductive Outcome where
  | returned (nresults : Nat) (L : lua_State)
  | raised (err : TValue) (L : lua_State)
  | undefined
deriving DecidableEq, Repr

/-- How a call made by the interpreter (`luaD_call`) ends: with the list of
values the callee returned, with the error value of a raised error, or in
undefined behaviour of a host function. -/
inductive Completion where
  | values (rets : List TValue)
  | error (err : TValue)
  | undefined
deriving DecidableEq, Repr

/-- The meaning of a loaded chunk: from the state it is called in to the way
it completes and the state it leaves (heap, registry and globals; the stack of
the caller is restored by `lua_pcall`). -/
abbrev Chunk := lua_State → Completion × lua_State

/-- The chunk loaders `luaL_loadstring` and `luaL_loadfile`: a chunk, or the
message of the load error. -/
structure Loader where
  luaL_loadstring : String → Except String Chunk
  luaL_loadfile : String → Except String Chunk

/-! ## Lua 5.1 C API -/

def LUA_TNONE : Int := -1
def LUA_TNIL : Int := 0
def LUA_TBOOLEAN : Int := 1
def LUA_TLIGHTUSERDATA : Int := 2
def LUA_TNUMBER : Int := 3
def LUA_TSTRING : Int := 4
def LUA_TTABLE : Int := 5
def LUA_TFUNCTION : Int := 6
def LUA_TUSERDATA : Int := 7
def LUA_TTHREAD : Int := 8

/-- Primitive table read `luaH_get`. -/
def rawget : Fields → TValue → TValue
  | [], _ => .nil
  | (k1, v1) :: rest, k => if k1 = k then v1 else rawget rest k

/-- Primitive table write `luaH_set`; storing nil removes the entry. -/
def rawset : Fields → TValue → TValue → Fields
  | [], k, v => if v = .nil then [] else [(k, v)]
  | (k1, v1) :: rest, k, v =>
    if k1 = k then (if v = .nil then rest else (k, v) :: rest)
    else (k1, v1) :: rawset rest k v

/-- The value at an acceptable stack index (`index2adr`); `none` where the
index addresses no value of the current frame. -/
def index2adr (L : lua_State) (idx : Int) : Option TValue :=
  if 0 < idx then L.stack.get? (idx.toNat - 1)
  else if idx < 0 ∧ (-idx).toNat ≤ L.stack.length then
    L.stack.get? (L.stack.length - (-idx).toNat)
  else none

/-- The position in the stack list of an acceptable index. -/
def stackpos (L : lua_State) (idx : Int) : Nat :=
  if 0 < idx then idx.toNat - 1 else L.stack.length - (-idx).toNat

def ttype : TValue → Int
  | .nil => LUA_TNIL
  | .boolean _ => LUA_TBOOLEAN
  | .number _ => LUA_TNUMBER
  | .string _ => LUA_TSTRING
  | .table _ => LUA_TTABLE
  | .userdata _ => LUA_TUSERDATA
  | .cfunction _ => LUA_TFUNCTION

def lua_type (L : lua_State) (idx : Int) : Int :=
  match index2adr L idx with
  | none => LUA_TNONE
  | some v => ttype v

def lua_typename (t : Int) : String :=
  if t = LUA_TNONE then "no value"
  else if t = LUA_TNIL then "nil"
  else if t = LUA_TBOOLEAN then "boolean"
  else if t = LUA_TLIGHTUSERDATA then "userdata"
  else if t = LUA_TNUMBER then "number"
  else if t = LUA_TSTRING then "string"
  else if t = LUA_TTABLE then "table"
  else if t = LUA_TFUNCTION then "function"
  else if t = LUA_TUSERDATA then "userdata"
  else "thread"

def luaL_typename (L : lua_State) (idx : Int) : String :=
  lua_typename (lua_type L idx)

def push (L : lua_State) (v : TValue) : lua_State :=
  { L with stack := L.stack ++ [v] }

def lua_pushnil (L : lua_State) : lua_State := push L .nil

def lua_pushnumber (L : lua_State) (n : Int) : lua_State := push L (.number n)

/-- Pushes a copy of the string, `lua_pushstring`; a `NULL` argument pushes nil. -/
def lua_pushstring (L : lua_State) (s : Option String) : lua_State :=
  match s with
  | none => lua_pushnil L
  | some s => push L (.string s)

def lua_pushliteral (L : lua_State) (s : String) : lua_State := push L (.string s)

def lua_pushvalue (L : lua_State) (idx : Int) : lua_State :=
  push L ((index2adr L idx).getD .nil)

def lua_pop (L : lua_State) (n : Nat) : lua_State :=
  { L with stack := L.stack.take (L.stack.length - n) }

def lua_gettop (L : lua_State) : Nat := L.stack.length

def lua_newtable (L : lua_State) : lua_State :=
  { L with
    tables := L.tables ++ [{ fields := [], metatable := none }]
    stack := L.stack ++ [.table L.tables.length] }

/-- Allocates a block and pushes the userdata, `lua_newuserdata`; returns the
address of the block.  The fresh block holds no pointer yet. -/
def lua_newuserdata (L : lua_State) : Nat × lua_State :=
  (L.udata.length,
   { L with
     udata := L.udata ++ [{ block := .null, metatable := none }]
     stack := L.stack ++ [.userdata L.udata.length] })

/-- The C assignment `*p = ptr` through the address of a userdata block. -/
def store_block (L : lua_State) (p : Nat) (ptr : Pointer) : lua_State :=
  { L with udata := L.udata.modify (fun u => { u with block := ptr }) p }

/-- The C read `*p` through the address of a userdata block. -/
def load_block (L : lua_State) (p : Nat) : Pointer :=
  match L.udata.get? p with
  | some u => u.block
  | none => .null

/-- The macro `luaL_getmetatable(L, n)`: `lua_getfield(L, LUA_REGISTRYINDEX, n)`. -/
def luaL_getmetatable (L : lua_State) (tname : String) : lua_State :=
  push L (rawget L.registry (.string tname))

/-- The metatable of a value, as `lua_getmetatable` finds it (tables and
userdata; the per-type metatables of the other types are not modelled). -/
def metatable_of (L : lua_State) : TValue → Option Nat
  | .table r => (L.tables.get? r).bind Table.metatable
  | .userdata r => (L.udata.get? r).bind Udata.metatable
  | _ => none

/-- Pops a table or nil and makes it the metatable of the value at `objindex`. -/
def lua_setmetatable (L : lua_State) (objindex : Int) : lua_State :=
  let mt : Option Nat :=
    match L.stack.getLast? with
    | some (.table r) => some r
    | _ => none
  let L1 := lua_pop L 1
  match index2adr L objindex with
  | some (.table r) =>
    { L1 with tables := L1.tables.modify (fun t => { t with metatable := mt }) r }
  | some (.userdata r) =>
    { L1 with udata := L1.udata.modify (fun u => { u with metatable := mt }) r }
  | _ => L1

/-- Pops a value and stores it as the global `name`, `lua_setglobal`. -/
def lua_setglobal (L : lua_State) (name : String) : lua_State :=
  let v := L.stack.getLast?.getD .nil
  { lua_pop L 1 with globals := rawset L.globals (.string name) v }

def lua_getglobal (L : lua_State) (name : String) : TValue :=
  rawget L.globals (.string name)

/-- Text of the value at `idx`, `lua_tolstring`: a string as it is, a number
converted (and replaced in the stack by the string), `NULL` otherwise. -/
def lua_tolstring (h : Host) (L : lua_State) (idx : Int) : Option String × lua_State :=
  match index2adr L idx with
  | some (.string s) => (some s, L)
  | some (.number n) =>
    let s := h.lua_number2str n
    (some s, { L with stack := L.stack.set (stackpos L idx) (.string s) })
  | _ => (none, L)

/-- The macro `lua_tostring(L, i)`: `lua_tolstring(L, i, NULL)`. -/
def lua_tostring (h : Host) (L : lua_State) (idx : Int) : Option String × lua_State :=
  lua_tolstring h L idx

/-- The error value of `luaL_argerror`.  The position prefix and the function
name, which the library takes from the debug information of the running call,
are left out. -/
def luaL_argerror (narg : Int) (extramsg : String) : TValue :=
  .string ("bad argument #" ++ toString narg ++ " (" ++ extramsg ++ ")")

/-- The error value `luaL_typerror` raises: a type-mismatch error. -/
def luaL_typerror (L : lua_State) (narg : Int) (tname : String) : TValue :=
  luaL_argerror narg (tname ++ " expected, got " ++ luaL_typename L narg)

def luaL_checktype (L : lua_State) (narg : Int) (t : Int) : Except TValue Unit :=
  if lua_type L narg ≠ t then .error (luaL_typerror L narg (lua_typename t))
  else .ok ()

/-- The address of the block when the value at `ud` is a userdata whose
metatable is the one registered under `tname`; a type error otherwise. -/
def luaL_checkudata (L : lua_State) (ud : Int) (tname : String) : Except TValue (Option Nat) :=
  match index2adr L ud with
  | some (.userdata p) =>
    match metatable_of L (.userdata p) with
    | some mt =>
      if rawget L.registry (.string tname) = .table mt then .ok (some p)
      else .error (luaL_typerror L ud tname)
    | none => .error (luaL_typerror L ud tname)
  | _ => .error (luaL_typerror L ud tname)

/-- The macro `luaL_checkstring`: the text of argument `narg` or a type error. -/
def luaL_checkstring (h : Host) (L : lua_State) (narg : Int) : Except TValue (String × lua_State) :=
  match lua_tolstring h L narg with
  | (some s, L1) => .ok (s, L1)
  | (none, _) => .error (luaL_typerror L narg (lua_typename LUA_TSTRING))

/-! ## `lua.c`: unwrapping handles and the host methods

Each host method unwraps its receiver first and then reads the host record
through the pointer of the block.  `lua_callvalue` stores a `FileData` pointer
in every block it tags `Image`, and `get_exif` an `ExifData` pointer or `NULL`
in every block it tags `Exif`; a block that holds another pointer under the
tag makes the read undefined. -/

def lua_check_image (L : lua_State) (index : Int) : Except TValue Pointer :=
  match luaL_checktype L index LUA_TUSERDATA with
  | .error e => .error e
  | .ok () =>
    match luaL_checkudata L index "Image" with
    | .error e => .error e
    | .ok none => .error (luaL_typerror L index "Image")
    | .ok (some fd) => .ok (load_block L fd)

def lua_image_get_exif (h : Host) (L : lua_State) : Outcome × List HostCall :=
  match lua_check_image L 1 with
  | .error e => (.raised e L, [])
  | .ok (.fileData fd) =>
    let exif := h.exif_read_fd fd
    let (exif_data, L1) := lua_newuserdata L
    let L2 := luaL_getmetatable L1 "Exif"
    let L3 := lua_setmetatable L2 (-2)
    let L4 := store_block L3 exif_data
      (match exif with
       | none => .null
       | some e => .exifData e)
    (.returned 1 L4, [.exif_read_fd fd])
  | .ok _ => (.undefined, [])

def lua_image_get_path (L : lua_State) : Outcome :=
  match lua_check_image L 1 with
  | .error e => .raised e L
  | .ok (.fileData fd) => .returned 1 (lua_pushstring L (some fd.path))
  | .ok _ => .undefined

def lua_image_get_name (L : lua_State) : Outcome :=
  match lua_check_image L 1 with
  | .error e => .raised e L
  | .ok (.fileData fd) => .returned 1 (lua_pushstring L (some fd.name))
  | .ok _ => .undefined

def lua_image_get_extension (L : lua_State) : Outcome :=
  match lua_check_image L 1 with
  | .error e => .raised e L
  | .ok (.fileData fd) => .returned 1 (lua_pushstring L (some fd.extension))
  | .ok _ => .undefined

def lua_image_get_date (L : lua_State) : Outcome :=
  match lua_check_image L 1 with
  | .error e => .raised e L
  | .ok (.fileData fd) => .returned 1 (lua_pushnumber L fd.date)
  | .ok _ => .undefined

def lua_image_get_size (L : lua_State) : Outcome :=
  match lua_check_image L 1 with
  | .error e => .raised e L
  | .ok (.fileData fd) => .returned 1 (lua_pushnumber L fd.size)
  | .ok _ => .undefined

def lua_check_exif (L : lua_State) (index : Int) : Except TValue Pointer :=
  match luaL_checktype L index LUA_TUSERDATA with
  | .error e => .error e
  | .ok () =>
    match luaL_checkudata L index "Exif" with
    | .error e => .error e
    | .ok none => .error (luaL_typerror L index "Exif")
    | .ok (some exif) => .ok (load_block L exif)

/-- The reserved key of `lua_exif_get_datum`. -/
def DateTimeOriginal : String := "Exif.Photo.DateTimeOriginal"

/-- The format `lua_exif_get_datum` passes to `strptime`. -/
def datetime_format : String := "%Y:%m:%d %H:%M:%S"

def lua_exif_get_datum (h : Host) (L : lua_State) : Outcome × List HostCall :=
  match lua_check_exif L 1 with
  | .error e => (.raised e L, [])
  | .ok ptr =>
    match luaL_checkstring h L 2 with
    | .error e => (.raised e L, [])
    | .ok (key, L1) =>
      if key = "" then (.returned 1 (lua_pushnil L1), [])
      else
        match ptr with
        | .null => (.returned 1 (lua_pushnil L1), [])
        | .fileData _ => (.undefined, [])
        | .exifData exif =>
          let value := h.exif_get_data_as_text exif key
          if key = DateTimeOriginal then
            let tm := Tm.zeroed
            match value with
            | none => (.returned 1 (lua_pushnil L1), [.exif_get_data_as_text exif key])
            | some v =>
              match h.strptime v datetime_format tm with
              | some tm1 =>
                let datetime := h.mktime tm1
                (.returned 1 (lua_pushnumber L1 datetime),
                 [.exif_get_data_as_text exif key, .strptime v datetime_format, .mktime tm1])
              | none =>
                (.returned 1 (lua_pushnil L1),
                 [.exif_get_data_as_text exif key, .strptime v datetime_format])
          else
            (.returned 1 (lua_pushstring L1 value), [.exif_get_data_as_text exif key])

/-! ## Lua 5.1 interpreter: calls and indexing with tag methods -/

/-- The host function behind a `lua_CFunction` value. -/
def cfunction_body (h : Host) (f : CFunc) (L : lua_State) : Outcome :=
  match f with
  | .image_get_path => lua_image_get_path L
  | .image_get_name => lua_image_get_name L
  | .image_get_extension => lua_image_get_extension L
  | .image_get_date => lua_image_get_date L
  | .image_get_size => lua_image_get_size L
  | .image_get_exif => (lua_image_get_exif h L).1
  | .exif_get_datum => (lua_exif_get_datum h L).1

/-- Calls a C function (`luaD_precall` and `luaD_poscall`): the callee runs on a
frame that holds the arguments; its `nresults` topmost values are the results;
the stack of the caller is untouched. -/
def call_cfunction (h : Host) (f : CFunc) (L : lua_State) (args : List TValue) :
    Completion × lua_State :=
  match cfunction_body h f { L with stack := args } with
  | .returned n L1 =>
    (.values (L1.stack.drop (L1.stack.length - n)), { L1 with stack := L.stack })
  | .raised e L1 => (.error e, { L1 with stack := L.stack })
  | .undefined => (.undefined, L)

/-- The tag method of a value for an event, `luaT_gettmbyobj`. -/
def luaT_gettmbyobj (L : lua_State) (v : TValue) (event : String) : TValue :=
  match metatable_of L v with
  | none => .nil
  | some mt =>
    match L.tables.get? mt with
    | none => .nil
    | some t => rawget t.fields (.string event)

/-- The error value of `luaG_typeerror` (without the variable description). -/
def luaG_typeerror (v : TValue) (op : String) : TValue :=
  .string ("attempt to " ++ op ++ " a " ++ lua_typename (ttype v) ++ " value")

/-- Calls a value, `luaD_call`: a function directly, any other value through
its `__call` tag method. -/
def luaD_call (h : Host) (L : lua_State) (fn : TValue) (args : List TValue) :
    Completion × lua_State :=
  match fn with
  | .cfunction f => call_cfunction h f L args
  | v =>
    match luaT_gettmbyobj L v "__call" with
    | .cfunction f => call_cfunction h f L (v :: args)
    | _ => (.error (luaG_typeerror v "call"), L)

/-- The bound on chains of `__index` / `__newindex` tables. -/
def MAXTAGLOOP : Nat := 100

/-- The loop of `luaV_gettable`, with `loop` iterations left. -/
def luaV_gettable_loop (h : Host) (L : lua_State) : Nat → TValue → TValue → Completion × lua_State
  | 0, _, _ => (.error (.string "loop in gettable"), L)
  | loop + 1, t, key =>
    let tm := luaT_gettmbyobj L t "__index"
    let viaTM : Completion × lua_State :=
      match tm with
      | .cfunction f =>
        match call_cfunction h f L [t, key] with
        | (.values rets, L1) => (.values [rets.headD .nil], L1)
        | r => r
      | _ => luaV_gettable_loop h L loop tm key
    match t with
    | .table r =>
      let res :=
        match L.tables.get? r with
        | some tb => rawget tb.fields key
        | none => .nil
      if res ≠ .nil ∨ tm = .nil then (.values [res], L) else viaTM
    | _ =>
      if tm = .nil then (.error (luaG_typeerror t "index"), L) else viaTM

/-- Indexing `t[key]` with tag methods; one value on success. -/
def luaV_gettable (h : Host) (L : lua_State) (t key : TValue) : Completion × lua_State :=
  luaV_gettable_loop h L MAXTAGLOOP t key

/-- The loop of `luaV_settable`, with `loop` iterations left. -/
def luaV_settable_loop (h : Host) (L : lua_State) :
    Nat → TValue → TValue → TValue → Completion × lua_State
  | 0, _, _, _ => (.error (.string "loop in settable"), L)
  | loop + 1, t, key, val =>
    let tm := luaT_gettmbyobj L t "__newindex"
    let viaTM : Completion × lua_State :=
      match tm with
      | .cfunction f =>
        match call_cfunction h f L [t, key, val] with
        | (.values _, L1) => (.values [], L1)
        | r => r
      | _ => luaV_settable_loop h L loop tm key val
    match t with
    | .table r =>
      let oldval :=
        match L.tables.get? r with
        | some tb => rawget tb.fields key
        | none => .nil
      if key = .nil then (.error (.string "table index is nil"), L)
      else if oldval ≠ .nil ∨ tm = .nil then
        (.values [],
         { L with tables :=
             L.tables.modify (fun tb => { tb with fields := rawset tb.fields key val }) r })
      else viaTM
    | _ =>
      if tm = .nil then (.error (luaG_typeerror t "index"), L) else viaTM

/-- The assignment `t[key] = val` with tag methods. -/
def luaV_settable (h : Host) (L : lua_State) (t key val : TValue) : Completion × lua_State :=
  luaV_settable_loop h L MAXTAGLOOP t key val

/-- The base library function `getmetatable` on one argument: nil without a
metatable, else the `__metatable` field of the metatable when it has one, else
the metatable. -/
def luaB_getmetatable (L : lua_State) (v : TValue) : TValue :=
  match metatable_of L v with
  | none => .nil
  | some mt =>
    match luaT_gettmbyobj L v "__metatable" with
    | .nil => .table mt
    | field => field

/-- A method call `obj:name(args)` (`OP_SELF` then `OP_CALL`). -/
def method_call (h : Host) (L : lua_State) (obj : TValue) (name : String)
    (args : List TValue) : Completion × lua_State :=
  match luaV_gettable h L obj (.string name) with
  | (.values rets, L1) => luaD_call h L1 (rets.headD .nil) (obj :: args)
  | r => r

/-! ## Lua 5.1 C API used outside a protected call

An error raised here is not caught: the interpreter calls its panic function
and the process ends.  These functions return `none` in that case. -/

/-- Does `t[k] = v` for the table at `idx`, `k` and `v` being the two topmost
values, and pops both, `lua_settable`. -/
def lua_settable (h : Host) (L : lua_State) (idx : Int) : Option lua_State :=
  let t := (index2adr L idx).getD .nil
  let key := (index2adr L (-2)).getD .nil
  let val := (index2adr L (-1)).getD .nil
  match luaV_settable h L t key val with
  | (.values _, L1) => some (lua_pop L1 2)
  | _ => none

/-- Does `t[k] = v` for the table at `idx`, `v` being the topmost value, and
pops it, `lua_setfield`. -/
def lua_setfield (h : Host) (L : lua_State) (idx : Int) (k : String) : Option lua_State :=
  let t := (index2adr L idx).getD .nil
  let val := (index2adr L (-1)).getD .nil
  match luaV_settable h L t (.string k) val with
  | (.values _, L1) => some (lua_pop L1 1)
  | _ => none

/-- Pushes `t[k]` for the table at `idx`, `lua_getfield`. -/
def lua_getfield (h : Host) (L : lua_State) (idx : Int) (k : String) : Option lua_State :=
  let t := (index2adr L idx).getD .nil
  match luaV_gettable h L t (.string k) with
  | (.values rets, L1) => some (push L1 (rets.headD .nil))
  | _ => none

/-- Removes the value at `idx`, shifting down the values above it. -/
def lua_remove (L : lua_State) (idx : Int) : lua_State :=
  { L with stack := L.stack.eraseIdx (stackpos L idx) }

/-- The two pseudo-indices `luaL_findtable` is called with. -/
inductive Root where
  | registry
  | globals
deriving DecidableEq, Repr

def root_fields (L : lua_State) : Root → Fields
  | .registry => L.registry
  | .globals => L.globals

def set_root_field (L : lua_State) (root : Root) (k v : TValue) : lua_State :=
  match root with
  | .registry => { L with registry := rawset L.registry k v }
  | .globals => { L with globals := rawset L.globals k v }

/-- The function `luaL_findtable(L, idx, fname, szhint)` for a pseudo-index and
a name without dots: pushes the table stored under `fname`, creating it when
the field is nil; returns the name when the field holds another value. -/
def luaL_findtable (L : lua_State) (root : Root) (fname : String) : Option String × lua_State :=
  match rawget (root_fields L root) (.string fname) with
  | .nil =>
    let L1 := lua_newtable L
    (none, set_root_field L1 root (.string fname) (.table L.tables.length))
  | .table r => (none, push L (.table r))
  | _ => (some fname, L)

/-- Registers the functions of `l` in the table on top of the stack, the loop
of `luaI_openlib` without upvalues. -/
def register_functions (h : Host) : lua_State → List (String × CFunc) → Option lua_State
  | L, [] => some L
  | L, (name, f) :: l =>
    match lua_setfield h (push L (.cfunction f)) (-2) name with
    | none => none
    | some L1 => register_functions h L1 l

/-- The function `luaL_register(L, libname, l)`.  With a name it finds or
creates the table of the module (recorded in the loaded-module table
`_LOADED` and as a global) and leaves it on the stack; without one it uses the
table on top of the stack. -/
def luaL_register (h : Host) (L : lua_State) (libname : Option String)
    (l : List (String × CFunc)) : Option lua_State :=
  match libname with
  | none => register_functions h L l
  | some libname =>
    let L1 := (luaL_findtable L .registry "_LOADED").2
    match lua_getfield h L1 (-1) libname with
    | none => none
    | some L2 =>
      let found : Option lua_State :=
        if lua_type L2 (-1) ≠ LUA_TTABLE then
          match luaL_findtable (lua_pop L2 1) .globals libname with
          | (some _, _) => none
          | (none, L3) => lua_setfield h (lua_pushvalue L3 (-1)) (-3) libname
        else some L2
      match found with
      | none => none
      | some L4 => register_functions h (lua_remove L4 (-2)) l

/-- The function `luaL_newmetatable`: creates the table registered under
`tname` unless the name is in use; the table (or the value in use) is left on
the stack. -/
def luaL_newmetatable (L : lua_State) (tname : String) : lua_State :=
  let L1 := luaL_getmetatable L tname
  if lua_type L1 (-1) ≠ LUA_TNIL then L1
  else
    let L2 := lua_newtable (lua_pop L1 1)
    let L3 := lua_pushvalue L2 (-1)
    { lua_pop L3 1 with
      registry := rawset L3.registry (.string tname) ((index2adr L3 (-1)).getD .nil) }

def luaL_newstate : lua_State :=
  { stack := [], tables := [], udata := [], registry := [], globals := [] }

/-- The function `luaL_openlibs`, as far as `lua.c` depends on it: the
loaded-module table `_LOADED` of the registry and the global `package` whose
field `loaded` is that table.  The tables and functions of the standard
libraries themselves are not values of the model. -/
def luaL_openlibs (L : lua_State) : lua_State :=
  let loaded := L.tables.length
  let package := L.tables.length + 1
  { L with
    tables := L.tables ++
      [{ fields := [(.string "package", .table package)], metatable := none },
       { fields := [(.string "loaded", .table loaded)], metatable := none }]
    registry := rawset L.registry (.string "_LOADED") (.table loaded)
    globals := rawset L.globals (.string "package") (.table package) }

/-! ## `lua.c`: initialisation and the script invoker -/

def meta_methods : List (String × CFunc) := []

def image_methods : List (String × CFunc) :=
  [("get_path", .image_get_path),
   ("get_name", .image_get_name),
   ("get_extension", .image_get_extension),
   ("get_date", .image_get_date),
   ("get_size", .image_get_size),
   ("get_exif", .image_get_exif)]

def exif_methods : List (String × CFunc) :=
  [("get_datum", .exif_get_datum)]

/-- The function `lua_init`: the state it leaves in the static `L`, or `none`
when an unprotected error ends the process. -/
def lua_init (h : Host) : Option lua_State := do
  let L := luaL_newstate
  let L := luaL_openlibs L
  let L ← luaL_register h L (some "Image") image_methods
  let L := luaL_newmetatable L "Image"
  let L ← luaL_register h L none meta_methods
  let L := lua_pushliteral L "__index"
  let L := lua_pushvalue L (-3)
  let L ← lua_settable h L (-3)
  let L := lua_pushliteral L "__metatable"
  let L := lua_pushvalue L (-3)
  let L ← lua_settable h L (-3)
  let L := lua_pop L 1
  let L := lua_pop L 1
  let L ← luaL_register h L (some "Exif") exif_methods
  let L := luaL_newmetatable L "Exif"
  let L ← luaL_register h L none meta_methods
  let L := lua_pushliteral L "__index"
  let L := lua_pushvalue L (-3)
  let L ← lua_settable h L (-3)
  let L := lua_pushliteral L "__metatable"
  let L := lua_pushvalue L (-3)
  let L ← lua_settable h L (-3)
  let L := lua_pop L 1
  let L := lua_pop L 1
  pure L

/-- Loads and runs a chunk, the common part of the macros `luaL_dostring` and
`luaL_dofile`: `(load || lua_pcall(L, 0, LUA_MULTRET, 0))`.  A load error
pushes its message; the chunk pushes all its return values, or its error
value.  The result is `none` when a host function called by the chunk has
undefined behaviour. -/
def load_and_pcall (L : lua_State) (loaded : Except String Chunk) : Option (Int × lua_State) :=
  match loaded with
  | .error msg => some (1, push L (.string msg))
  | .ok chunk =>
    match chunk L with
    | (.values rets, L1) => some (0, { L1 with stack := L.stack ++ rets })
    | (.error e, L1) => some (1, { L1 with stack := L.stack ++ [e] })
    | (.undefined, _) => none

def luaL_dostring (ld : Loader) (L : lua_State) (s : String) : Option (Int × lua_State) :=
  load_and_pcall L (ld.luaL_loadstring s)

def luaL_dofile (ld : Loader) (L : lua_State) (fn : String) : Option (Int × lua_State) :=
  load_and_pcall L (ld.luaL_loadfile fn)

/-- What a call of `lua_callvalue` yields: the returned string (`none` when the
call has undefined behaviour and returns nothing), the state left in the static
`L`, and the calls it made to collaborators, in order. -/
structure CallValue where
  data : Option String
  L : lua_State
  calls : List HostCall
deriving DecidableEq, Repr

/-- The text `g_strdup_printf` substitutes for `%s`: the string, or `(null)`
for a `NULL` pointer. -/
def percent_s : Option String → String
  | some s => s
  | none => "(null)"

/-- The first part of `lua_callvalue`: the globals `Collection` and `Image`
are installed and the image record is stored in the new handle. -/
def lua_callvalue_bind (L : lua_State) (fd : FileData) : lua_State :=
  let L := lua_newtable L
  let L := lua_setglobal L "Collection"
  let (image_data, L) := lua_newuserdata L
  let L := luaL_getmetatable L "Image"
  let L := lua_setmetatable L (-2)
  let L := lua_setglobal L "Image"
  store_block L image_data (.fileData fd)

/-- The second part of `lua_callvalue`: the inline source or the named file is
run; with the calls made to find the file. -/
def lua_callvalue_run (h : Host) (ld : Loader) (L : lua_State) (file function : String) :
    Option (Int × lua_State) × List HostCall :=
  if file = "" then (luaL_dostring ld L function, [])
  else
    let dir := h.g_build_filename h.get_rc_dir "lua"
    let path := h.g_build_filename dir file
    (luaL_dofile ld L path, [.get_rc_dir])

def lua_callvalue (h : Host) (ld : Loader) (L : lua_State) (fd : FileData)
    (file function : String) : CallValue :=
  let L0 := lua_callvalue_bind L fd
  match lua_callvalue_run h ld L0 file function with
  | (none, calls) => { data := none, L := L0, calls := calls }
  | (some (result, L1), calls) =>
    if result ≠ 0 then
      let (msg, L2) := lua_tostring h L1 (-1)
      { data := some ("Error running lua script: " ++ percent_s msg), L := L2, calls := calls }
    else
      match lua_tostring h L1 (-1) with
      | (none, L2) => { data := none, L := L2, calls := calls }
      | (some data, L2) =>
        match h.g_locale_to_utf8 data with
        | .error message =>
          { data := some data, L := L2,
            calls := calls ++ [.g_locale_to_utf8 data,
              .log_printf ("Error converting lua output from locale to UTF-8: " ++ message ++ "\n")] }
        | .ok tmp =>
          { data := some tmp, L := L2, calls := calls ++ [.g_locale_to_utf8 data] }

/-! ## The C library's `strptime` and `mktime`

The two functions are parameters of `lua_exif_get_datum` (fields of `Host`).
The definitions below give them the meaning POSIX and the GNU C library give
them, for the conversion specifications that occur in `datetime_format`. -/

/-- The C library's `isspace` in the "C" locale. -/
def isspace (c : Char) : Bool :=
  c = ' ' || c = '\t' || c = '\n' || c = '\r' || c.toNat = 11 || c.toNat = 12

def skip_spaces : List Char → List Char
  | [] => []
  | c :: rp => if isspace c then skip_spaces rp else c :: rp

/-- The digits after the first one of a number field: at most `n` more, while
the value can still grow without passing `hi`. -/
def get_number_loop : Nat → Nat → Nat → List Char → Nat × List Char
  | 0, val, _, rp => (val, rp)
  | _ + 1, val, _, [] => (val, [])
  | n + 1, val, hi, c :: rp =>
    if val * 10 ≤ hi ∧ c.isDigit then get_number_loop n (val * 10 + (c.toNat - 48)) hi rp
    else (val, c :: rp)

/-- A number field of `strptime`: white space is skipped, then one to `n`
digits are read; the value must lie in `lo .. hi`.  Leading zeros are
permitted but not required. -/
def get_number (lo hi n : Nat) (rp : List Char) : Option (Nat × List Char) :=
  match skip_spaces rp with
  | [] => none
  | c :: rest =>
    if c.isDigit then
      let r := get_number_loop (n - 1) (c.toNat - 48) hi rest
      if r.1 < lo ∨ hi < r.1 then none else some r
    else none

/-- One conversion specification of `strptime`, for the conversion character
`d`: `%Y`, `%m`, `%d`, `%H`, `%M`, `%S` read a number field and store it.  Other
conversion specifications do not occur in `datetime_format` and are rejected
here.  The result is the unread rest of the input and the fields set. -/
def strptime_conversion (d : Char) (rp : List Char) (tm : Tm) : Option (List Char × Tm) :=
  if d = 'Y' then
    match get_number 0 9999 4 rp with
    | some (val, rp1) => some (rp1, { tm with tm_year := (val : Int) - 1900 })
    | none => none
  else if d = 'm' then
    match get_number 1 12 2 rp with
    | some (val, rp1) => some (rp1, { tm with tm_mon := (val : Int) - 1 })
    | none => none
  else if d = 'd' then
    match get_number 1 31 2 rp with
    | some (val, rp1) => some (rp1, { tm with tm_mday := (val : Int) })
    | none => none
  else if d = 'H' then
    match get_number 0 23 2 rp with
    | some (val, rp1) => some (rp1, { tm with tm_hour := (val : Int) })
    | none => none
  else if d = 'M' then
    match get_number 0 59 2 rp with
    | some (val, rp1) => some (rp1, { tm with tm_min := (val : Int) })
    | none => none
  else if d = 'S' then
    match get_number 0 61 2 rp with
    | some (val, rp1) => some (rp1, { tm with tm_sec := (val : Int) })
    | none => none
  else none

/-- A character of the format that is neither white space nor `%` must be
matched by the same character of the input (`match_char`). -/
def match_char (c : Char) (rp : List Char) : Option (List Char) :=
  match rp with
  | r :: rp1 => if r = c then some rp1 else none
  | [] => none

/-- The scanning loop of `strptime` over the format: white space in the format
matches any amount of white space in the input (none included), `%` starts a
conversion specification, any other character must be matched by the same
character.  The result is the unread rest of the input and the fields set so
far. -/
def strptime_loop : List Char → List Char → Tm → Option (List Char × Tm)
  | [], rp, tm => some (rp, tm)
  | [c], rp, tm =>
    if isspace c then some (skip_spaces rp, tm)
    else if c = '%' then none
    else
      match match_char c rp with
      | some rp1 => some (rp1, tm)
      | none => none
  | c :: d :: fmt, rp, tm =>
    if isspace c then strptime_loop (d :: fmt) (skip_spaces rp) tm
    else if c = '%' then
      match strptime_conversion d rp tm with
      | some (rp1, tm1) => strptime_loop fmt rp1 tm1
      | none => none
    else
      match match_char c rp with
      | some rp1 => strptime_loop (d :: fmt) rp1 tm
      | none => none

/-- The C library's `strptime(s, format, &tm)`: the fields it stored in `tm`
when it returns a pointer into `s`, `none` when it returns `NULL`.  Input left
over after the format is used up does not make it fail.  `tm_wday`, `tm_yday`
and `tm_isdst` are left as they were. -/
def libc_strptime (s format : String) (tm : Tm) : Option Tm :=
  (strptime_loop format.toList s.toList tm).map Prod.snd

def is_leap_year (y : Int) : Bool :=
  y % 4 = 0 && (y % 100 != 0 || y % 400 = 0)

/-- The number of leap years before year `y` (proleptic Gregorian). -/
def leap_years_before (y : Int) : Int :=
  (y - 1) / 4 - (y - 1) / 100 + (y - 1) / 400

/-- Days of a common year before the first of month `m` (January is 0). -/
def days_before_month (m : Int) : Int :=
  if m = 0 then 0 else if m = 1 then 31 else if m = 2 then 59 else if m = 3 then 90
  else if m = 4 then 120 else if m = 5 then 151 else if m = 6 then 181
  else if m = 7 then 212 else if m = 8 then 243 else if m = 9 then 273
  else if m = 10 then 304 else 334

/-- Days from 1970-01-01 to the date of a broken-down time; fields out of
their range are carried over. -/
def days_from_epoch (tm : Tm) : Int :=
  let y := tm.tm_year + 1900 + tm.tm_mon / 12
  let m := tm.tm_mon % 12
  365 * (y - 1970) + (leap_years_before y - leap_years_before 1970)
    + days_before_month m + (if is_leap_year y ∧ 2 ≤ m then 1 else 0) + (tm.tm_mday - 1)

/-- Seconds since the epoch of a broken-down time read as UTC (`timegm`). -/
def timegm (tm : Tm) : Int :=
  days_from_epoch tm * 86400 + tm.tm_hour * 3600 + tm.tm_min * 60 + tm.tm_sec

/-- A local time zone: the offsets from UTC, in seconds east, of its standard
and of its daylight-saving time, and the local wall-clock times (as seconds of
`timegm`) at which daylight-saving time is in effect. -/
structure TimeZone where
  std_offset : Int
  dst_offset : Int
  dst_in_effect : Int → Bool

/-- The C library's `mktime` in a time zone.  A zero `tm_isdst` makes it read
the fields as standard time, a positive one as daylight-saving time; with a
negative one it finds out itself which of the two is in effect. -/
def libc_mktime (tz : TimeZone) (tm : Tm) : Int :=
  let wall := timegm tm
  if 0 < tm.tm_isdst then wall - tz.dst_offset
  else if tm.tm_isdst = 0 then wall - tz.std_offset
  else if tz.dst_in_effect wall then wall - tz.dst_offset
  else wall - tz.std_offset

/-- The local-time epoch conversion of a broken-down date-time: the offset in
effect at that wall-clock time is the one applied. -/
def local_time_epoch (tz : TimeZone) (tm : Tm) : Int :=
  libc_mktime tz { tm with tm_isdst := -1 }

/-- Central European time with the rules of 2020: standard time UTC+1,
daylight-saving time UTC+2 from 2020-03-29 02:00 to 2020-10-25 03:00. -/
def central_europe_2020 : TimeZone :=
  { std_offset := 3600
    dst_offset := 7200
    dst_in_effect := fun wall => decide (1585447200 ≤ wall ∧ wall < 1603594800) }

/-! ## Notions of the specification -/

/-- Modelled on the specification's words: a text of the exact format
`YYYY:MM:DD HH:MM:SS`, four, two, two, two, two and two digits with the
separators in between and nothing else. -/
def exact_datetime_format (s : String) : Bool :=
  match s.toList with
  | [y1, y2, y3, y4, c1, m1, m2, c2, d1, d2, sp, h1, h2, c3, n1, n2, c4, s1, s2] =>
    y1.isDigit && y2.isDigit && y3.isDigit && y4.isDigit && c1 = ':'
      && m1.isDigit && m2.isDigit && c2 = ':' && d1.isDigit && d2.isDigit && sp = ' '
      && h1.isDigit && h2.isDigit && c3 = ':' && n1.isDigit && n2.isDigit && c4 = ':'
      && s1.isDigit && s2.isDigit
  | _ => false

/-- The text form of a Lua value as `lua_tostring` gives it: only strings and
numbers have one. -/
def text_of (h : Host) : TValue → Option String
  | .string s => some s
  | .number n => some (h.lua_number2str n)
  | _ => none

/-- A value carries the type tag `tname`: it is a full userdata whose
metatable is the table registered under `tname`. -/
def has_tag (L : lua_State) (tname : String) : Option TValue → Bool
  | some (.userdata p) =>
    match metatable_of L (.userdata p) with
    | some mt => rawget L.registry (.string tname) = .table mt
    | none => false
  | _ => false

/-- The chunk `lua_callvalue` loads for its arguments: the inline source when
`file` is empty, else the file of that name in the `lua` directory of the
configuration directory. -/
def selected_source (h : Host) (ld : Loader) (file function : String) : Except String Chunk :=
  if file = "" then ld.luaL_loadstring function
  else ld.luaL_loadfile (h.g_build_filename (h.g_build_filename h.get_rc_dir "lua") file)

/-- The script fails with runtime message `m`: loading it fails with `m`, or
running it in `L` raises an error whose value has the text `m`. -/
def script_fails_with (h : Host) (ld : Loader) (L : lua_State) (file function m : String) :
    Prop :=
  match selected_source h ld file function with
  | .error msg => msg = m
  | .ok chunk => ∃ e L1, chunk L = (.error e, L1) ∧ text_of h e = some m

/-- The script executes without error in `L` and the last value it returns
is `v`. -/
def script_returns (h : Host) (ld : Loader) (L : lua_State) (file function : String)
    (v : TValue) : Prop :=
  match selected_source h ld file function with
  | .error _ => False
  | .ok chunk => ∃ rets L1, chunk L = (.values rets, L1) ∧ rets.getLast? = some v

/-! ## Concrete scripts, hosts and states -/

/-- The chunk of the source `return Image:get_path()`. -/
def chunk_return_image_get_path (h : Host) : Chunk := fun L =>
  method_call h L (lua_getglobal L "Image") "get_path" []

/-- The chunk of the source `return Image.get_path(Image:get_exif())`: the
Image method `get_path` called with the Metadata handle as its receiver. -/
def chunk_get_path_of_exif (h : Host) : Chunk := fun L =>
  match luaV_gettable h L (lua_getglobal L "Image") (.string "get_path") with
  | (.values fn, L1) =>
    match method_call h L1 (lua_getglobal L1 "Image") "get_exif" [] with
    | (.values rets, L2) => luaD_call h L2 (fn.headD .nil) [rets.headD .nil]
    | r => r
  | r => r

/-- The chunk of the source `return nil`. -/
def chunk_return_nil : Chunk := fun L => (.values [.nil], L)

/-- The chunk of the source `return "a"`. -/
def chunk_return_a : Chunk := fun L => (.values [.string "a"], L)

/-- The chunk of the source `x = 1`, which returns no value. -/
def chunk_assign_x : Chunk := fun L =>
  (.values [], { L with globals := rawset L.globals (.string "x") (.number 1) })

/-- The chunk of the source `getmetatable(Image).get_path = nil return "ok"`. -/
def chunk_delete_get_path (h : Host) : Chunk := fun L =>
  match luaV_settable h L (luaB_getmetatable L (lua_getglobal L "Image"))
      (.string "get_path") .nil with
  | (.values _, L1) => (.values [.string "ok"], L1)
  | r => r

/-- The chunk of the source
`getmetatable(Image).get_path = Image.get_name return "ok"`. -/
def chunk_rebind_get_path (h : Host) : Chunk := fun L =>
  match luaV_gettable h L (lua_getglobal L "Image") (.string "get_name") with
  | (.values rets, L1) =>
    match luaV_settable h L1 (luaB_getmetatable L1 (lua_getglobal L1 "Image"))
        (.string "get_path") (rets.headD .nil) with
    | (.values _, L2) => (.values [.string "ok"], L2)
    | r => r
  | r => r

/-- A loader for the sources above.  The source `return return` is not Lua and
fails to load with the message of the Lua parser; a source that is not listed
is not loaded either. -/
def sample_loader (h : Host) : Loader :=
  { luaL_loadstring := fun s =>
      if s = "return Image:get_path()" then .ok (chunk_return_image_get_path h)
      else if s = "return Image.get_path(Image:get_exif())" then .ok (chunk_get_path_of_exif h)
      else if s = "return nil" then .ok chunk_return_nil
      else if s = "return \"a\"" then .ok chunk_return_a
      else if s = "x = 1" then .ok chunk_assign_x
      else if s = "getmetatable(Image).get_path = nil return \"ok\"" then
        .ok (chunk_delete_get_path h)
      else if s = "getmetatable(Image).get_path = Image.get_name return \"ok\"" then
        .ok (chunk_rebind_get_path h)
      else if s = "return return" then
        .error "[string \"return return\"]:1: unexpected symbol near 'return'"
      else .error ("[string \"" ++ s ++ "\"]: not one of the sample sources")
    luaL_loadfile := fun fn => .error ("cannot open " ++ fn) }

/-- A host: one metadata set with two fields, the C library's time functions
in Central European time, and a locale whose encoding is UTF-8 already. -/
def sample_host : Host :=
  { exif_read_fd := fun _ => some { handle := 1 }
    exif_get_data_as_text := fun _ key =>
      if key = "Exif.Image.Make" then some "ACME"
      else if key = DateTimeOriginal then some "2020:07:01 12:00:00"
      else none
    strptime := libc_strptime
    mktime := libc_mktime central_europe_2020
    lua_number2str := fun n => toString n
    get_rc_dir := "/home/user/.config/geeqie"
    g_build_filename := fun a b => a ++ "/" ++ b
    g_locale_to_utf8 := fun s => .ok s }

/-- The sample host with a metadata set that has the one field `field`, of
text `value`. -/
def host_with_field (field value : String) : Host :=
  { sample_host with
    exif_get_data_as_text := fun _ key => if key = field then some value else none }

/-- The sample host with a locale in which no text converts. -/
def host_without_conversion : Host :=
  { sample_host with g_locale_to_utf8 := fun _ => .error "Invalid byte sequence in conversion input" }

def sample_image : FileData :=
  { path := "/tmp/a.jpg", name := "a.jpg", extension := ".jpg", date := 1577836800, size := 4096 }

/-- The state `lua_init` leaves: the loaded-module table (0), the `package`
table (1), the Image method table (2) and metatable (3), the Exif method table
(4) and metatable (5). -/
def initial_state : lua_State :=
  { stack := []
    tables :=
      [{ fields := [(.string "package", .table 1), (.string "Image", .table 2),
                    (.string "Exif", .table 4)],
         metatable := none },
       { fields := [(.string "loaded", .table 0)], metatable := none },
       { fields := [(.string "get_path", .cfunction .image_get_path),
                    (.string "get_name", .cfunction .image_get_name),
                    (.string "get_extension", .cfunction .image_get_extension),
                    (.string "get_date", .cfunction .image_get_date),
                    (.string "get_size", .cfunction .image_get_size),
                    (.string "get_exif", .cfunction .image_get_exif)],
         metatable := none },
       { fields := [(.string "__index", .table 2), (.string "__metatable", .table 2)],
         metatable := none },
       { fields := [(.string "get_datum", .cfunction .exif_get_datum)], metatable := none },
       { fields := [(.string "__index", .table 4), (.string "__metatable", .table 4)],
         metatable := none }]
    udata := []
    registry := [(.string "_LOADED", .table 0), (.string "Image", .table 3),
                 (.string "Exif", .table 5)]
    globals := [(.string "package", .table 1), (.string "Image", .table 2),
                (.string "Exif", .table 4)] }

/-- A frame in which `get_datum` is called on a Metadata handle: the handle
(with the block `ptr`) at index 1 and the key at index 2. -/
def datum_frame (ptr : Pointer) (key : TValue) : lua_State :=
  { initial_state with
    stack := [.userdata 0, key]
    udata := [{ block := ptr, metatable := some 5 }] }

/-- The frame of the call `get_datum("Exif.Photo.DateTimeOriginal")` on a
handle of the metadata set 1. -/
def datetime_query : lua_State :=
  datum_frame (.exifData { handle := 1 }) (.string DateTimeOriginal)

/-- The broken-down time of 2020-07-01 12:00:00 as `strptime` stores it in a
zeroed `struct tm`. -/
def noon_1_july_2020 : Tm :=
  { tm_sec := 0, tm_min := 0, tm_hour := 12, tm_mday := 1, tm_mon := 6,
    tm_year := 120, tm_wday := 0, tm_yday := 0, tm_isdst := 0 }

/-- The type-mismatch error the unwrap of argument 1 raises for the tag
`tname`: `luaL_checktype` complains about a value that is no full userdata,
`luaL_checkudata` about a userdata of another tag. -/
def type_mismatch (L : lua_State) (tname : String) : TValue :=
  luaL_typerror L 1 (if lua_type L 1 = LUA_TUSERDATA then tname else lua_typename LUA_TUSERDATA)

/-- The image handle a script sees: the global `Image`. -/
def image_handle (L : lua_State) : TValue := lua_getglobal L "Image"

/-- The shared state after a call of `lua_callvalue` whose script deleted
`get_path` from the table `getmetatable(Image)`. -/
def state_after_delete : lua_State :=
  (lua_callvalue sample_host (sample_loader sample_host) initial_state sample_image
    "" "getmetatable(Image).get_path = nil return \"ok\"").L

/-- The shared state after a call of `lua_callvalue` whose script stored
`get_name` under `get_path` in the table `getmetatable(Image)`. -/
def state_after_rebind : lua_State :=
  (lua_callvalue sample_host (sample_loader sample_host) initial_state sample_image
    "" "getmetatable(Image).get_path = Image.get_name return \"ok\"").L

/-! ## Stack lemmas -/

theorem index2adr_top (L : lua_State) (st : List TValue) (v : TValue) :
    index2adr { L with stack := st ++ [v] } (-1) = some v := by
  simp [index2adr]

theorem index2adr_top_of_getLast (L : lua_State) (st rets : List TValue) (v : TValue)
    (hlast : rets.getLast? = some v) :
    index2adr { L with stack := st ++ rets } (-1) = some v := by
  obtain ⟨init, rfl⟩ : ∃ init, rets = init ++ [v] := by
    rcases List.eq_nil_or_concat rets with hnil | ⟨init, x, hx⟩
    · simp [hnil] at hlast
    · refine ⟨init, ?_⟩
      subst hx
      simp at hlast
      simp [hlast]
  rw [← List.append_assoc]
  exact index2adr_top L (st ++ init) v

theorem lua_tostring_text (h : Host) (L : lua_State) (v : TValue) (t : String)
    (htop : index2adr L (-1) = some v) (ht : text_of h v = some t) :
    (lua_tostring h L (-1)).1 = some t := by
  cases v <;> simp_all [lua_tostring, lua_tolstring, text_of]

/-! ## Unwrapping a handle -/

theorem luaL_checkudata_untagged (L : lua_State) (tname : String)
    (htag : has_tag L tname (index2adr L 1) = false) (p : Nat)
    (hv : index2adr L 1 = some (.userdata p)) :
    luaL_checkudata L 1 tname = .error (luaL_typerror L 1 tname) := by
  rw [hv] at htag
  simp only [has_tag] at htag
  unfold luaL_checkudata
  rw [hv]
  cases hm : metatable_of L (.userdata p) with
  | none => simp [hm]
  | some mt =>
    rw [hm] at htag
    simp only [decide_eq_false_iff_not] at htag
    simp [hm, htag]

theorem lua_check_image_untagged (L : lua_State)
    (htag : has_tag L "Image" (index2adr L 1) = false) :
    lua_check_image L 1 = .error (type_mismatch L "Image") := by
  unfold lua_check_image luaL_checktype type_mismatch
  cases hv : index2adr L 1 with
  | none => simp [lua_type, hv, LUA_TNONE, LUA_TUSERDATA]
  | some v =>
    cases v with
    | userdata p =>
      rw [luaL_checkudata_untagged L "Image" htag p hv]
      simp [lua_type, hv, ttype]
    | _ =>
      simp [lua_type, hv, ttype, LUA_TUSERDATA, LUA_TNIL, LUA_TBOOLEAN, LUA_TNUMBER,
        LUA_TSTRING, LUA_TTABLE, LUA_TFUNCTION]

theorem lua_check_exif_untagged (L : lua_State)
    (htag : has_tag L "Exif" (index2adr L 1) = false) :
    lua_check_exif L 1 = .error (type_mismatch L "Exif") := by
  unfold lua_check_exif luaL_checktype type_mismatch
  cases hv : index2adr L 1 with
  | none => simp [lua_type, hv, LUA_TNONE, LUA_TUSERDATA]
  | some v =>
    cases v with
    | userdata p =>
      rw [luaL_checkudata_untagged L "Exif" htag p hv]
      simp [lua_type, hv, ttype]
    | _ =>
      simp [lua_type, hv, ttype, LUA_TUSERDATA, LUA_TNIL, LUA_TBOOLEAN, LUA_TNUMBER,
        LUA_TSTRING, LUA_TTABLE, LUA_TFUNCTION]

/-! ## `get_datum` -/

theorem luaL_checkstring_string (h : Host) (L : lua_State) (key : String)
    (hkey : index2adr L 2 = some (.string key)) :
    luaL_checkstring h L 2 = .ok (key, L) := by
  simp [luaL_checkstring, lua_tolstring, hkey]

/-- C5: `get_datum` on a Metadata handle with a key string returns Nil, and
raises nothing, when the key is empty, when the metadata set is null, or when
the collaborator has no value for the key (the reserved key included); with an
empty key or a null set no collaborator is called. -/
theorem get_datum_nil_without_value (h : Host) (L : lua_State) (ptr : Pointer) (key : String)
    (hrecv : lua_check_exif L 1 = .ok ptr)
    (hkey : index2adr L 2 = some (.string key))
    (hcase : key = "" ∨ ptr = .null ∨
      ∃ exif, ptr = .exifData exif ∧ h.exif_get_data_as_text exif key = none) :
    (lua_exif_get_datum h L).1 = .returned 1 (lua_pushnil L) ∧
    ((key = "" ∨ ptr = .null) → (lua_exif_get_datum h L).2 = []) := by
  unfold lua_exif_get_datum
  rw [hrecv, luaL_checkstring_string h L key hkey]
  by_cases hempty : key = ""
  · simp [hempty]
  · rcases hcase with hk | hnull | ⟨exif, hptr, hval⟩
    · exact absurd hk hempty
    · subst hnull
      simp [hempty]
    · subst hptr
      by_cases hres : key = DateTimeOriginal
      · subst hres
        simp [hempty, hval]
      · simp [hempty, hres, hval, lua_pushstring]

theorem get_datum_nil_without_value_witness :
    (lua_exif_get_datum sample_host
        (datum_frame (.exifData { handle := 1 }) (.string "Exif.Photo.FNumber"))).1
      = .returned 1 (lua_pushnil
          (datum_frame (.exifData { handle := 1 }) (.string "Exif.Photo.FNumber"))) ∧
    (lua_exif_get_datum sample_host (datum_frame .null (.string DateTimeOriginal))).2 = [] :=
  ⟨(get_datum_nil_without_value sample_host
      (datum_frame (.exifData { handle := 1 }) (.string "Exif.Photo.FNumber"))
      (.exifData { handle := 1 }) "Exif.Photo.FNumber" rfl rfl
      (Or.inr (Or.inr ⟨{ handle := 1 }, rfl, rfl⟩))).1,
   (get_datum_nil_without_value sample_host (datum_frame .null (.string DateTimeOriginal))
      .null DateTimeOriginal rfl rfl (Or.inr (Or.inl rfl))).2 (Or.inr rfl)⟩

/-- C6 (as stated, refuted): texts under the reserved key that are not of the
exact format `YYYY:MM:DD HH:MM:SS` (trailing characters, fields without zero
padding, other white space) are parsed all the same: `get_datum` returns a
number for them, not Nil. -/
theorem get_datum_accepts_inexact_datetime :
    (exact_datetime_format "2020:07:01 12:00:00xyz" = false ∧
      (lua_exif_get_datum (host_with_field DateTimeOriginal "2020:07:01 12:00:00xyz")
          datetime_query).1 = .returned 1 (lua_pushnumber datetime_query 1593601200)) ∧
    (exact_datetime_format "2020:7:1 12:0:0" = false ∧
      (lua_exif_get_datum (host_with_field DateTimeOriginal "2020:7:1 12:0:0")
          datetime_query).1 = .returned 1 (lua_pushnumber datetime_query 1593601200)) ∧
    (exact_datetime_format "2020:07:01 \t 12:00:00" = false ∧
      (lua_exif_get_datum (host_with_field DateTimeOriginal "2020:07:01 \t 12:00:00")
          datetime_query).1 = .returned 1 (lua_pushnumber datetime_query 1593601200)) :=
  ⟨⟨rfl, rfl⟩, ⟨rfl, rfl⟩, ⟨rfl, rfl⟩⟩

/-- C6 (amended): under the reserved key, a text that `strptime` rejects for
the format `%Y:%m:%d %H:%M:%S` makes `get_datum` return Nil, without an error;
a text that `strptime` accepts makes it return the number `mktime` gives for
the parsed fields. -/
theorem get_datum_datetime_follows_strptime (h : Host) (L : lua_State) (exif : ExifData)
    (v : String)
    (hrecv : lua_check_exif L 1 = .ok (.exifData exif))
    (hkey : index2adr L 2 = some (.string DateTimeOriginal))
    (hv : h.exif_get_data_as_text exif DateTimeOriginal = some v) :
    (lua_exif_get_datum h L).1 =
      match h.strptime v datetime_format Tm.zeroed with
      | none => .returned 1 (lua_pushnil L)
      | some tm => .returned 1 (lua_pushnumber L (h.mktime tm)) := by
  unfold lua_exif_get_datum
  rw [hrecv, luaL_checkstring_string h L DateTimeOriginal hkey]
  have hne : ¬ DateTimeOriginal = "" := by decide
  cases hp : h.strptime v datetime_format Tm.zeroed <;> simp [hne, hv, hp]

theorem get_datum_datetime_follows_strptime_witness :
    libc_strptime "2020-07-01 12:00:00" datetime_format Tm.zeroed = none ∧
    (lua_exif_get_datum (host_with_field DateTimeOriginal "2020-07-01 12:00:00")
        datetime_query).1 = .returned 1 (lua_pushnil datetime_query) :=
  ⟨rfl, get_datum_datetime_follows_strptime
      (host_with_field DateTimeOriginal "2020-07-01 12:00:00") datetime_query
      { handle := 1 } "2020-07-01 12:00:00" rfl rfl rfl⟩

/-! ### The daylight-saving flag -/

theorem strptime_conversion_isdst (d : Char) (rp : List Char) (tm : Tm) (r : List Char × Tm)
    (hr : strptime_conversion d rp tm = some r) : r.2.tm_isdst = tm.tm_isdst := by
  unfold strptime_conversion at hr
  repeat' split at hr
  all_goals first | (cases hr; rfl) | (simp at hr)

theorem strptime_loop_isdst (fmt rp : List Char) (tm : Tm) (r : List Char × Tm)
    (hr : strptime_loop fmt rp tm = some r) : r.2.tm_isdst = tm.tm_isdst := by
  induction fmt, rp, tm using strptime_loop.induct generalizing r with
  | case1 rp tm => simp [strptime_loop] at hr; subst hr; rfl
  | case2 c rp tm hsp => simp [strptime_loop, hsp] at hr; subst hr; rfl
  | case3 rp tm hsp => simp [strptime_loop, hsp] at hr
  | case4 c rp tm hsp hpc rp1 hm => simp [strptime_loop, hsp, hpc, hm] at hr; subst hr; rfl
  | case5 c rp tm hsp hpc hm => simp [strptime_loop, hsp, hpc, hm] at hr
  | case6 c d fmt rp tm hsp ih => apply ih; simpa [strptime_loop, hsp] using hr
  | case7 d fmt rp tm rp1 tm1 hconv hsp ih =>
    have hr1 : strptime_loop fmt rp1 tm1 = some r := by
      simpa [strptime_loop, hsp, hconv] using hr
    rw [ih r hr1]
    exact strptime_conversion_isdst d rp tm (rp1, tm1) hconv
  | case8 d fmt rp tm hconv hsp => simp [strptime_loop, hsp, hconv] at hr
  | case9 c d fmt rp tm hsp hpc rp1 hm ih =>
    apply ih; simpa [strptime_loop, hsp, hpc, hm] using hr
  | case10 c d fmt rp tm hsp hpc hm => simp [strptime_loop, hsp, hpc, hm] at hr

/-- The C library's `strptime` leaves `tm_isdst` as it finds it. -/
theorem libc_strptime_isdst (s format : String) (tm tm1 : Tm)
    (hp : libc_strptime s format tm = some tm1) : tm1.tm_isdst = tm.tm_isdst := by
  unfold libc_strptime at hp
  obtain ⟨r, hl, hr⟩ := Option.map_eq_some'.mp hp
  subst hr
  exact strptime_loop_isdst _ _ _ r hl

theorem local_time_epoch_dst (tz : TimeZone) (tm : Tm)
    (hdst : tz.dst_in_effect (timegm tm) = true) :
    local_time_epoch tz tm = timegm tm - tz.dst_offset := by
  have ht : timegm { tm with tm_isdst := -1 } = timegm tm := rfl
  simp [local_time_epoch, libc_mktime, ht, hdst]

/-- With the C library's `strptime` and `mktime`, in any time zone: a text
under the reserved key that parses to a date-time at which daylight-saving
time is in effect makes `get_datum` return the local-time epoch conversion of
that date-time plus the difference of the two offsets of the zone. -/
theorem get_datum_datetime_standard_time (h : Host) (tz : TimeZone) (L : lua_State)
    (exif : ExifData) (v : String) (tm1 : Tm)
    (hstrptime : h.strptime = libc_strptime)
    (hmktime : h.mktime = libc_mktime tz)
    (hrecv : lua_check_exif L 1 = .ok (.exifData exif))
    (hkey : index2adr L 2 = some (.string DateTimeOriginal))
    (hv : h.exif_get_data_as_text exif DateTimeOriginal = some v)
    (hparse : libc_strptime v datetime_format Tm.zeroed = some tm1)
    (hdst : tz.dst_in_effect (timegm tm1) = true) :
    (lua_exif_get_datum h L).1 =
      .returned 1 (lua_pushnumber L
        (local_time_epoch tz tm1 + (tz.dst_offset - tz.std_offset))) := by
  have hzero : tm1.tm_isdst = 0 := libc_strptime_isdst v datetime_format Tm.zeroed tm1 hparse
  have hmk : libc_mktime tz tm1 = timegm tm1 - tz.std_offset := by
    simp [libc_mktime, hzero]
  have hne : ¬ DateTimeOriginal = "" := by decide
  unfold lua_exif_get_datum
  rw [hrecv, luaL_checkstring_string h L DateTimeOriginal hkey]
  simp only [hne, if_false, if_true, hv, hstrptime, hparse, hmktime, hmk,
    local_time_epoch_dst tz tm1 hdst]
  congr 2
  ring

theorem get_datum_datetime_standard_time_sample :
    (lua_exif_get_datum sample_host datetime_query).1 =
      .returned 1 (lua_pushnumber datetime_query
        (local_time_epoch central_europe_2020 noon_1_july_2020 + (7200 - 3600))) :=
  get_datum_datetime_standard_time sample_host central_europe_2020 datetime_query
    { handle := 1 } "2020:07:01 12:00:00" noon_1_july_2020 rfl rfl rfl rfl rfl rfl rfl

/-- C7: for the text `2020:07:01 12:00:00` under the reserved key, in Central
European time, `get_datum` passes to `mktime` the parsed year, month, day, hour,
minute and second with `tm_isdst` zero, and returns 1593601200, one hour more
than the local-time epoch conversion 1593597600 of that date-time, which lies
in daylight-saving time. -/
theorem get_datum_datetime_ignores_dst :
    lua_exif_get_datum sample_host datetime_query =
      (.returned 1 (lua_pushnumber datetime_query 1593601200),
       [.exif_get_data_as_text { handle := 1 } DateTimeOriginal,
        .strptime "2020:07:01 12:00:00" datetime_format,
        .mktime noon_1_july_2020]) ∧
    central_europe_2020.dst_in_effect (timegm noon_1_july_2020) = true ∧
    local_time_epoch central_europe_2020 noon_1_july_2020 = 1593597600 :=
  ⟨rfl, rfl, rfl⟩

theorem lua_init_state (h : Host) : lua_init h = some initial_state := rfl

theorem lua_callvalue_run_eq (h : Host) (ld : Loader) (L : lua_State) (file function : String) :
    lua_callvalue_run h ld L file function =
      (load_and_pcall L (selected_source h ld file function),
       if file = "" then [] else [.get_rc_dir]) := by
  unfold lua_callvalue_run selected_source luaL_dostring luaL_dofile
  split <;> rfl

theorem load_and_pcall_of_fails (h : Host) (ld : Loader) (L : lua_State)
    (file function m : String) (hfail : script_fails_with h ld L file function m) :
    ∃ L1, load_and_pcall L (selected_source h ld file function) = some (1, L1) ∧
      (lua_tostring h L1 (-1)).1 = some m := by
  unfold script_fails_with at hfail
  cases hsrc : selected_source h ld file function with
  | error msg =>
    rw [hsrc] at hfail
    subst hfail
    refine ⟨push L (.string msg), rfl, ?_⟩
    exact lua_tostring_text h _ (.string msg) msg (index2adr_top L L.stack _) rfl
  | ok chunk =>
    rw [hsrc] at hfail
    obtain ⟨e, L1, hrun, htext⟩ := hfail
    refine ⟨{ L1 with stack := L.stack ++ [e] }, by simp [load_and_pcall, hrun], ?_⟩
    exact lua_tostring_text h _ e m (index2adr_top L1 L.stack e) htext

theorem load_and_pcall_of_returns (h : Host) (ld : Loader) (L : lua_State)
    (file function : String) (v : TValue)
    (hret : script_returns h ld L file function v) :
    ∃ L1, load_and_pcall L (selected_source h ld file function) = some (0, L1) ∧
      index2adr L1 (-1) = some v := by
  unfold script_returns at hret
  cases hsrc : selected_source h ld file function with
  | error msg => rw [hsrc] at hret; exact hret.elim
  | ok chunk =>
    rw [hsrc] at hret
    obtain ⟨rets, L1, hrun, hlast⟩ := hret
    exact ⟨{ L1 with stack := L.stack ++ rets }, by simp [load_and_pcall, hrun],
      index2adr_top_of_getLast L1 L.stack rets v hlast⟩

/-- C1: when the selected script source, inline or file, fails to load or to
run with message `m`, `lua_callvalue` returns `Error running lua script: `
followed by `m`, and makes no call of `g_locale_to_utf8`. -/
theorem callvalue_error_string (h : Host) (ld : Loader) (L : lua_State) (fd : FileData)
    (file function m : String)
    (hfail : script_fails_with h ld (lua_callvalue_bind L fd) file function m) :
    (lua_callvalue h ld L fd file function).data = some ("Error running lua script: " ++ m) ∧
    ∀ s, HostCall.g_locale_to_utf8 s ∉ (lua_callvalue h ld L fd file function).calls := by
  obtain ⟨L1, hload, htext⟩ := load_and_pcall_of_fails h ld _ file function m hfail
  unfold lua_callvalue
  simp only [lua_callvalue_run_eq, hload]
  by_cases hfile : file = "" <;> simp [hfile, htext, percent_s]

theorem callvalue_error_string_witness :
    (lua_callvalue sample_host (sample_loader sample_host) initial_state sample_image
        "" "return return").data =
      some ("Error running lua script: "
        ++ "[string \"return return\"]:1: unexpected symbol near 'return'") ∧
    ∀ s, HostCall.g_locale_to_utf8 s ∉
      (lua_callvalue sample_host (sample_loader sample_host) initial_state sample_image
        "" "return return").calls :=
  callvalue_error_string sample_host (sample_loader sample_host) initial_state sample_image
    "" "return return" "[string \"return return\"]:1: unexpected symbol near 'return'" rfl

/-- What `lua_callvalue` yields when the script returns and its last value has
the text `t`. -/
theorem lua_callvalue_of_returns (h : Host) (ld : Loader) (L : lua_State)
    (fd : FileData) (file function : String) (v : TValue) (t : String)
    (hret : script_returns h ld (lua_callvalue_bind L fd) file function v)
    (ht : text_of h v = some t) :
    ∃ L2 calls, lua_callvalue h ld L fd file function =
      match h.g_locale_to_utf8 t with
      | .error message =>
        { data := some t, L := L2,
          calls := calls ++ [.g_locale_to_utf8 t,
            .log_printf ("Error converting lua output from locale to UTF-8: " ++ message ++ "\n")] }
      | .ok tmp => { data := some tmp, L := L2, calls := calls ++ [.g_locale_to_utf8 t] } := by
  obtain ⟨L1, hload, htop⟩ := load_and_pcall_of_returns h ld _ file function v hret
  have htext := lua_tostring_text h L1 v t htop ht
  unfold lua_callvalue
  simp only [lua_callvalue_run_eq, hload]
  rcases hts : lua_tostring h L1 (-1) with ⟨o, L2⟩
  rw [hts] at htext
  simp only at htext
  subst htext
  refine ⟨L2, if file = "" then [] else [.get_rc_dir], ?_⟩
  cases hconv : h.g_locale_to_utf8 t <;> simp [hconv]

/-- C3: when the script executes successfully and its last value has the text
`t`, `lua_callvalue` returns `t` itself if `g_locale_to_utf8` fails on it (and
logs the failure), and the converted text if it succeeds. -/
theorem callvalue_reencoding_fallback (h : Host) (ld : Loader) (L : lua_State)
    (fd : FileData) (file function : String) (v : TValue) (t : String)
    (hret : script_returns h ld (lua_callvalue_bind L fd) file function v)
    (ht : text_of h v = some t) :
    (lua_callvalue h ld L fd file function).data =
      some (match h.g_locale_to_utf8 t with
        | .error _ => t
        | .ok u => u) ∧
    ∀ message, h.g_locale_to_utf8 t = .error message →
      HostCall.log_printf
          ("Error converting lua output from locale to UTF-8: " ++ message ++ "\n") ∈
        (lua_callvalue h ld L fd file function).calls := by
  obtain ⟨L2, calls, hcall⟩ := lua_callvalue_of_returns h ld L fd file function v t hret ht
  rw [hcall]
  cases hconv : h.g_locale_to_utf8 t <;> simp [hconv]

theorem callvalue_reencoding_fallback_witness :
    (lua_callvalue host_without_conversion (sample_loader host_without_conversion)
        initial_state sample_image "" "return Image:get_path()").data = some "/tmp/a.jpg" ∧
    ∀ message, host_without_conversion.g_locale_to_utf8 "/tmp/a.jpg" = .error message →
      HostCall.log_printf
          ("Error converting lua output from locale to UTF-8: " ++ message ++ "\n") ∈
        (lua_callvalue host_without_conversion (sample_loader host_without_conversion)
          initial_state sample_image "" "return Image:get_path()").calls :=
  callvalue_reencoding_fallback host_without_conversion (sample_loader host_without_conversion)
    initial_state sample_image "" "return Image:get_path()" (.string "/tmp/a.jpg") "/tmp/a.jpg"
    ⟨[.string "/tmp/a.jpg"], lua_callvalue_bind initial_state sample_image, rfl, rfl⟩ rfl

theorem lua_callvalue_bind_stack (L : lua_State) (fd : FileData) :
    (lua_callvalue_bind L fd).stack = L.stack := by
  simp only [lua_callvalue_bind, lua_newtable, lua_setglobal, lua_newuserdata,
    luaL_getmetatable, lua_setmetatable, store_block, push, lua_pop]
  split <;> simp [List.take_take]

theorem lua_tostring_gettop (h : Host) (L : lua_State) (idx : Int) :
    lua_gettop (lua_tostring h L idx).2 = lua_gettop L := by
  unfold lua_tostring lua_tolstring lua_gettop
  split <;> simp

/-- Every call of `lua_callvalue` whose script returns leaves the values the
script returned on the stack of the shared state. -/
theorem lua_callvalue_stack_grows (h : Host) (ld : Loader) (L : lua_State) (fd : FileData)
    (file function : String) (chunk : Chunk) (rets : List TValue) (L1 : lua_State)
    (hsrc : selected_source h ld file function = .ok chunk)
    (hrun : chunk (lua_callvalue_bind L fd) = (.values rets, L1)) :
    lua_gettop (lua_callvalue h ld L fd file function).L = lua_gettop L + rets.length := by
  have hlen := lua_tostring_gettop h
    { L1 with stack := (lua_callvalue_bind L fd).stack ++ rets } (-1)
  unfold lua_callvalue
  simp only [lua_callvalue_run_eq, hsrc, load_and_pcall, hrun]
  rcases hts : lua_tostring h { L1 with stack := (lua_callvalue_bind L fd).stack ++ rets } (-1)
    with ⟨o, L2⟩
  rw [hts] at hlen
  simp only [lua_gettop, List.length_append, lua_callvalue_bind_stack] at hlen
  cases o with
  | none => simpa [lua_gettop] using hlen
  | some data =>
    cases hconv : h.g_locale_to_utf8 data <;> simpa [lua_gettop, hconv] using hlen

theorem lua_callvalue_stack_grows_sample :
    lua_gettop (lua_callvalue sample_host (sample_loader sample_host) initial_state
      sample_image "" "return Image:get_path()").L = lua_gettop initial_state + 1 :=
  lua_callvalue_stack_grows sample_host (sample_loader sample_host) initial_state sample_image
    "" "return Image:get_path()" (chunk_return_image_get_path sample_host)
    [.string "/tmp/a.jpg"] (lua_callvalue_bind initial_state sample_image) rfl rfl

/-- C10: the value a script returns stays on the stack of the shared state
after `lua_callvalue` (the stack is one higher than on entry), and a later call
whose script returns no value converts that stale value: after
`return "a"`, the script `x = 1` makes `lua_callvalue` return `a`. -/
theorem callvalue_leaves_result_on_stack :
    lua_init sample_host = some initial_state ∧
    lua_gettop initial_state = 0 ∧
    lua_gettop (lua_callvalue sample_host (sample_loader sample_host) initial_state
      sample_image "" "return \"a\"").L = 1 ∧
    (lua_callvalue sample_host (sample_loader sample_host) initial_state sample_image
      "" "return \"a\"").L.stack = [.string "a"] ∧
    (lua_callvalue sample_host (sample_loader sample_host)
      (lua_callvalue sample_host (sample_loader sample_host) initial_state sample_image
        "" "return \"a\"").L
      sample_image "" "x = 1").data = some "a" :=
  ⟨rfl, rfl, rfl, rfl, rfl⟩

/-! ## Handles and method tables -/

/-- C4: each of the six Image methods, called with a receiver at index 1 that
does not carry the Image tag, raises the type-mismatch error and nothing else
(no result is pushed, no collaborator is called); `get_datum` does the same for
a receiver without the Metadata tag; and the handle `get_exif` returns carries
the Metadata tag, not the Image tag, so `get_path` called with it as receiver
raises the type-mismatch error. -/
theorem unwrap_checks_type_tag (h : Host) :
    (∀ L : lua_State, has_tag L "Image" (index2adr L 1) = false →
      lua_image_get_path L = .raised (type_mismatch L "Image") L ∧
      lua_image_get_name L = .raised (type_mismatch L "Image") L ∧
      lua_image_get_extension L = .raised (type_mismatch L "Image") L ∧
      lua_image_get_date L = .raised (type_mismatch L "Image") L ∧
      lua_image_get_size L = .raised (type_mismatch L "Image") L ∧
      lua_image_get_exif h L = (.raised (type_mismatch L "Image") L, [])) ∧
    (∀ L : lua_State, has_tag L "Exif" (index2adr L 1) = false →
      lua_exif_get_datum h L = (.raised (type_mismatch L "Exif") L, [])) ∧
    (∀ (fd : FileData) (L0 : lua_State), lua_init h = some L0 →
      ∃ v L2,
        method_call h (lua_callvalue_bind L0 fd) (image_handle (lua_callvalue_bind L0 fd))
          "get_exif" [] = (.values [v], L2) ∧
        has_tag L2 "Exif" (some v) = true ∧
        has_tag L2 "Image" (some v) = false ∧
        (luaD_call h L2 (.cfunction .image_get_path) [v]).1 =
          .error (type_mismatch { L2 with stack := [v] } "Image")) := by
  refine ⟨?_, ?_, ?_⟩
  · intro L htag
    have hc := lua_check_image_untagged L htag
    simp [lua_image_get_path, lua_image_get_name, lua_image_get_extension, lua_image_get_date,
      lua_image_get_size, lua_image_get_exif, hc]
  · intro L htag
    have hc := lua_check_exif_untagged L htag
    simp [lua_exif_get_datum, hc]
  · intro fd L0 hinit
    rw [lua_init_state] at hinit
    cases hinit
    exact ⟨.userdata 1, _, rfl, rfl, rfl, rfl⟩

theorem unwrap_checks_type_tag_witness :
    lua_image_get_path datetime_query = .raised (type_mismatch datetime_query "Image") datetime_query ∧
    (lua_callvalue sample_host (sample_loader sample_host) initial_state sample_image
      "" "return Image.get_path(Image:get_exif())").data =
      some "Error running lua script: bad argument #1 (Image expected, got userdata)" :=
  ⟨((unwrap_checks_type_tag sample_host).1 datetime_query rfl).1, rfl⟩

/-- C9 (as stated, refuted): a script reaches the Image method table through
`getmetatable(Image)` and changes it.  After a script deleted `get_path`, the
name resolves to nil on the image handle of the next call and the source
`return Image:get_path()` fails; after a script stored `get_name` under
`get_path`, that source returns the name of the image instead of its path. -/
theorem script_changes_method_table :
    lua_init sample_host = some initial_state ∧
    (luaV_gettable sample_host (lua_callvalue_bind state_after_delete sample_image)
      (image_handle (lua_callvalue_bind state_after_delete sample_image))
      (.string "get_path")).1 = .values [.nil] ∧
    (lua_callvalue sample_host (sample_loader sample_host) state_after_delete sample_image
      "" "return Image:get_path()").data =
      some "Error running lua script: attempt to call a nil value" ∧
    (luaV_gettable sample_host (lua_callvalue_bind state_after_rebind sample_image)
      (image_handle (lua_callvalue_bind state_after_rebind sample_image))
      (.string "get_path")).1 = .values [.cfunction .image_get_name] ∧
    (lua_callvalue sample_host (sample_loader sample_host) state_after_rebind sample_image
      "" "return Image:get_path()").data = some "a.jpg" :=
  ⟨rfl, rfl, rfl, rfl, rfl⟩

/-- C9 (amended): after `lua_init`, on the image handle of a call the six
method names resolve to the host functions of `image_methods`, and on the
handle `get_exif` returns `get_datum` resolves to `lua_exif_get_datum`;
`getmetatable` on either handle gives the method table of its type (the
`__index` of the handle), not the metatable registered under the type name. -/
theorem method_tables_installed (h : Host) (fd : FileData) (L0 : lua_State)
    (hinit : lua_init h = some L0) :
    (∀ name f, (name, f) ∈ image_methods →
      (luaV_gettable h (lua_callvalue_bind L0 fd) (image_handle (lua_callvalue_bind L0 fd))
        (.string name)).1 = .values [.cfunction f]) ∧
    (∃ v L2,
      method_call h (lua_callvalue_bind L0 fd) (image_handle (lua_callvalue_bind L0 fd))
        "get_exif" [] = (.values [v], L2) ∧
      (luaV_gettable h L2 v (.string "get_datum")).1 = .values [.cfunction .exif_get_datum] ∧
      luaB_getmetatable L2 v = luaT_gettmbyobj L2 v "__index" ∧
      luaB_getmetatable L2 v ≠ rawget L2.registry (.string "Exif")) ∧
    luaB_getmetatable (lua_callvalue_bind L0 fd) (image_handle (lua_callvalue_bind L0 fd)) =
      luaT_gettmbyobj (lua_callvalue_bind L0 fd) (image_handle (lua_callvalue_bind L0 fd))
        "__index" ∧
    luaB_getmetatable (lua_callvalue_bind L0 fd) (image_handle (lua_callvalue_bind L0 fd)) ≠
      rawget (lua_callvalue_bind L0 fd).registry (.string "Image") := by
  rw [lua_init_state] at hinit
  cases hinit
  refine ⟨?_, ⟨.userdata 1, _, rfl, rfl, rfl,
    fun heq => absurd (heq : TValue.table 4 = TValue.table 5)
      (show ¬ (TValue.table 4 = TValue.table 5) by decide)⟩, rfl, ?_⟩
  · intro name f hmem
    simp only [image_methods, List.mem_cons, Prod.mk.injEq, List.mem_singleton, List.not_mem_nil,
      or_false] at hmem
    rcases hmem with ⟨rfl, rfl⟩ | ⟨rfl, rfl⟩ | ⟨rfl, rfl⟩ | ⟨rfl, rfl⟩ | ⟨rfl, rfl⟩ | ⟨rfl, rfl⟩ <;> rfl
  · have h1 : luaB_getmetatable (lua_callvalue_bind initial_state fd)
        (image_handle (lua_callvalue_bind initial_state fd)) = .table 2 := rfl
    have h2 : rawget (lua_callvalue_bind initial_state fd).registry (.string "Image")
        = .table 3 := rfl
    rw [h1, h2]
    decide

theorem method_tables_installed_witness :
    (luaV_gettable sample_host (lua_callvalue_bind initial_state sample_image)
      (image_handle (lua_callvalue_bind initial_state sample_image))
      (.string "get_size")).1 = .values [.cfunction .image_get_size] :=
  (method_tables_installed sample_host sample_image initial_state rfl).1
    "get_size" .image_get_size (by decide)

end Geeqie
